import Mathlib

/-!
Shallow embedding of `src/src/juce_appframework/events/juce_MessageManager.cpp`
(the JUCE message-thread coordinator) and proofs about it.

Modelling conventions:
* OS thread ids and object addresses are `Nat`; the null pointer is `0`
  (the source compares recipients and the singleton pointer against `0`).
* The process-global state touched by the coordinator and by
  `MessageManagerLock` is gathered in one record `MMState`:
  `instanceExists` models `MessageManager::instance != 0`,
  `dispatchLockHeld` models whether `messageDispatchLock` is currently
  entered, and `messageListeners` is the set of registered recipients
  (a `List Nat` with `contains` as the membership test).
* The platform shim `juce_postMessageToSystemQueue` is an oracle
  `shimAccepts : Message → Bool`; `juce_dispatchNextMessageOnSystemQueue`
  is driven by an environment trace listing, per loop iteration, the
  value `Time::currentTimeMillis()` returns at the loop-condition check
  and the message (if any) the shim pops and hands to `deliverMessage`.
* `JUCE_TRY` / `JUCE_CATCH_EXCEPTION` around a recipient's
  `handleMessage` is modelled by an abstract `HandlerOutcome` for the
  handler call; both outcomes fall through to the single `delete m`,
  which is recorded in `DeliverResult.destroyCount`.
* The cancellable `MessageManagerLock (Thread*)` constructor's retry
  loop is driven by a trace of `(tryEnter result, threadShouldExit
  result)` observations, one per iteration; `none` means the trace ran
  out while the loop was still spinning.
-/

namespace Juce

/-- The reserved sentinel tag: `static const int quitMessageId = 0xfffff321`. -/
def quitMessageId : Nat := 0xfffff321

/-- A `Message` as the coordinator sees it: the constructor arguments of
`Message (intParameter1, intParameter2, intParameter3, pointerParameter)`
plus the `messageRecipient` pointer (`0` = null). -/
structure Message where
  intParameter1 : Nat
  intParameter2 : Nat
  intParameter3 : Nat
  pointerParameter : Nat
  messageRecipient : Nat
  deriving DecidableEq

/-- The process-global state read and written by `MessageManager` and
`MessageManagerLock`. -/
structure MMState where
  instanceExists : Bool
  messageThreadId : Nat
  currentLockingThreadId : Nat
  dispatchLockHeld : Bool
  quitMessagePosted : Bool
  quitMessageReceived : Bool
  messageListeners : List Nat
  broadcastListeners : Option (List Nat)
  deriving DecidableEq

/-- The per-object fields of a `MessageManagerLock`:
`lastLockingThreadId` and `locked`.  (In the cancellable constructor the
source leaves `lastLockingThreadId` uninitialised on the no-lock paths;
the destructor never reads it then, and the model uses `0`.) -/
structure MessageManagerLock where
  lastLockingThreadId : Nat
  locked : Bool
  deriving DecidableEq

/-- `MessageManager::isThisTheMessageThread`:
`Thread::getCurrentThreadId() == messageThreadId`. -/
def isThisTheMessageThread (s : MMState) (currentThreadId : Nat) : Bool :=
  currentThreadId == s.messageThreadId

/-- `MessageManager::currentThreadHasLockedMessageManager`:
`Thread::getCurrentThreadId() == currentLockingThreadId`. -/
def currentThreadHasLockedMessageManager (s : MMState) (currentThreadId : Nat) : Bool :=
  currentThreadId == s.currentLockingThreadId

/-- `MessageManager::setCurrentMessageThread (threadId)`. -/
def setCurrentMessageThread (s : MMState) (threadId : Nat) : MMState :=
  { s with messageThreadId := threadId }

/-- The blocking constructor `MessageManagerLock::MessageManagerLock()`:
if the singleton exists, enter `messageDispatchLock`, save the previous
`currentLockingThreadId`, write the calling thread's id there and set
`locked`; otherwise do nothing.  `tid` is the calling thread's id. -/
def MessageManagerLock.enterBlocking (s : MMState) (tid : Nat) :
    MMState × MessageManagerLock :=
  if s.instanceExists then
    ({ s with dispatchLockHeld := true, currentLockingThreadId := tid },
     { lastLockingThreadId := s.currentLockingThreadId, locked := true })
  else
    (s, { lastLockingThreadId := 0, locked := false })

/-- One iteration's observations inside the cancellable constructor's
retry loop: the result of `messageDispatchLock.tryEnter()` and of
`thread != 0 && thread->threadShouldExit()`. -/
abbrev LockAttempt := Bool × Bool

/-- The `for (;;)` retry loop of
`MessageManagerLock::MessageManagerLock (Thread*)`: on a successful
`tryEnter` behave like the blocking constructor and stop; otherwise if
the worker should exit, stop with `locked = false`; otherwise sleep 1 ms
and retry.  `none` means the observation trace ended mid-loop. -/
def MessageManagerLock.enterLoop (s : MMState) (tid : Nat) :
    List LockAttempt → Option (MMState × MessageManagerLock)
  | [] => none
  | (tryOk, shouldExit) :: rest =>
    if tryOk then
      some ({ s with dispatchLockHeld := true, currentLockingThreadId := tid },
            { lastLockingThreadId := s.currentLockingThreadId, locked := true })
    else if shouldExit then
      some (s, { lastLockingThreadId := 0, locked := false })
    else
      MessageManagerLock.enterLoop s tid rest

/-- The cancellable constructor `MessageManagerLock::MessageManagerLock
(Thread*)`: if the singleton does not exist, do nothing (`locked` stays
false); otherwise run the retry loop. -/
def MessageManagerLock.enterCancellable (s : MMState) (tid : Nat)
    (attempts : List LockAttempt) : Option (MMState × MessageManagerLock) :=
  if s.instanceExists then MessageManagerLock.enterLoop s tid attempts
  else some (s, { lastLockingThreadId := 0, locked := false })

/-- The destructor `MessageManagerLock::~MessageManagerLock()`:
only `if (locked && MessageManager::instance != 0)` restore the saved
`lastLockingThreadId` and exit `messageDispatchLock`. -/
def MessageManagerLock.destroy (s : MMState) (l : MessageManagerLock) : MMState :=
  if l.locked && s.instanceExists then
    { s with currentLockingThreadId := l.lastLockingThreadId,
             dispatchLockHeld := false }
  else s

/-- What `MessageManager::postMessageToQueue` did with the message:
whether `juce_postMessageToSystemQueue` was invoked at all, and whether
the message was deleted (`delete message`) rather than handed to the OS
queue. -/
structure PostResult where
  shimCalled : Bool
  destroyed : Bool
  deriving DecidableEq

/-- `MessageManager::postMessageToQueue (message)`:
`if (quitMessagePosted || ! juce_postMessageToSystemQueue (message))
delete message;` — note the short-circuit: the shim is consulted only
when `quitMessagePosted` is clear.  The global state is unchanged. -/
def postMessageToQueue (s : MMState) (shimAccepts : Message → Bool)
    (m : Message) : PostResult :=
  if s.quitMessagePosted then { shimCalled := false, destroyed := true }
  else if shimAccepts m then { shimCalled := true, destroyed := false }
  else { shimCalled := true, destroyed := true }

/-- `MessageManager::stopDispatchLoop()`: build the sentinel
`Message (quitMessageId, 0, 0, 0)` with `messageRecipient = 0`, hand it
to `postMessageToQueue`, then set `quitMessagePosted = true`.  Returns
the new state, the post's outcome and the sentinel that was built. -/
def stopDispatchLoop (s : MMState) (shimAccepts : Message → Bool) :
    MMState × PostResult × Message :=
  let m : Message :=
    { intParameter1 := quitMessageId, intParameter2 := 0, intParameter3 := 0,
      pointerParameter := 0, messageRecipient := 0 }
  let r := postMessageToQueue s shimAccepts m
  ({ s with quitMessagePosted := true }, r, m)

/-- Whether the recipient's `handleMessage (*m)` returns normally or
throws (the thrown case is what `JUCE_CATCH_EXCEPTION` swallows). -/
inductive HandlerOutcome where
  | normal
  | thrown
  deriving DecidableEq

/-- The handler call as a fallible computation: `thrown` raises. -/
def runHandler : HandlerOutcome → Except Unit Unit
  | HandlerOutcome.normal => Except.ok ()
  | HandlerOutcome.thrown => Except.error ()

/-- What one call to `deliverMessage` did: whether
`recipient->handleMessage` was invoked, whether its exception was caught
by the `JUCE_TRY` barrier, and how many times `delete m` ran. -/
structure DeliverResult where
  handlerInvoked : Bool
  exceptionCaught : Bool
  destroyCount : Nat
  deriving DecidableEq

/-- `MessageManager::deliverMessage (message)`: take a blocking
`MessageManagerLock` for the scope; if the recipient is in
`messageListeners`, call its handler inside `JUCE_TRY` /
`JUCE_CATCH_EXCEPTION`; otherwise if the recipient is null and
`intParameter1 == quitMessageId`, set `quitMessageReceived`; otherwise
fall through.  On every path the single `delete m` then runs, and the
scoped lock's destructor runs last.  `tid` is the dispatching thread's
id, `oc` how the handler call behaves if reached. -/
def deliverMessage (s : MMState) (tid : Nat) (m : Message)
    (oc : HandlerOutcome) : MMState × DeliverResult :=
  let acq := MessageManagerLock.enterBlocking s tid
  let s1 := acq.1
  let step : MMState × DeliverResult :=
    if s1.messageListeners.contains m.messageRecipient then
      match runHandler oc with
      | Except.ok _ =>
          (s1, { handlerInvoked := true, exceptionCaught := false, destroyCount := 1 })
      | Except.error _ =>
          (s1, { handlerInvoked := true, exceptionCaught := true, destroyCount := 1 })
    else if m.messageRecipient == 0 && m.intParameter1 == quitMessageId then
      ({ s1 with quitMessageReceived := true },
       { handlerInvoked := false, exceptionCaught := false, destroyCount := 1 })
    else
      (s1, { handlerInvoked := false, exceptionCaught := false, destroyCount := 1 })
  (MessageManagerLock.destroy step.1 acq.2, step.2)

/-- One iteration of the dispatch loop's environment: the value
`Time::currentTimeMillis()` returns at the loop-condition check, and the
message (with its handler's behaviour) that
`juce_dispatchNextMessageOnSystemQueue` pops and routes to
`deliverMessage` during that iteration — `none` when it dispatches
nothing. -/
abbrev LoopStep := Int × Option (Message × HandlerOutcome)

/-- The state after one `juce_dispatchNextMessageOnSystemQueue` call
that pops `popped`: a popped message is routed to `deliverMessage`, an
empty pop leaves the state alone. -/
def loopIterate (tid : Nat) (s : MMState) :
    Option (Message × HandlerOutcome) → MMState
  | some (m, oc) => (deliverMessage s tid m oc).1
  | none => s

/-- The `while` loop of `MessageManager::runDispatchLoopUntil`: keep
iterating while `(millisecondsToRunFor < 0 || endTime >
currentTimeMillis()) && ! quitMessageReceived`; each iteration calls the
shim with `returnIfNoPendingMessages = (millisecondsToRunFor >= 0)`.
Returns the loop's result `! quitMessageReceived` (`none` when the
environment trace ended while the loop was still running), the final
state, and the list of `returnIfNoPendingMessages` flags passed to the
shim, one per iteration. -/
def runDispatchLoopAux (millis endTime : Int) (tid : Nat) :
    MMState → List LoopStep → Option Bool × MMState × List Bool
  | s, [] => (none, s, [])
  | s, step :: rest =>
    if (millis < 0 ∨ step.1 < endTime) ∧ s.quitMessageReceived = false then
      let r := runDispatchLoopAux millis endTime tid (loopIterate tid s step.2) rest
      (r.1, r.2.1, decide (0 ≤ millis) :: r.2.2)
    else
      (some (!s.quitMessageReceived), s, [])

/-- `MessageManager::runDispatchLoopUntil (millisecondsToRunFor)`:
computes `endTime = currentTimeMillis() + millisecondsToRunFor`
(`startTime` is the clock reading taken there) and runs the loop. -/
def runDispatchLoopUntil (s : MMState) (tid : Nat) (millis startTime : Int)
    (env : List LoopStep) : Option Bool × MMState × List Bool :=
  runDispatchLoopAux millis (startTime + millis) tid s env

/-- `MessageManager::runDispatchLoop()`: `runDispatchLoopUntil (-1)`. -/
def runDispatchLoop (s : MMState) (tid : Nat) (startTime : Int)
    (env : List LoopStep) : Option Bool × MMState × List Bool :=
  runDispatchLoopUntil s tid (-1) startTime env

/-- `MessageManager::registerBroadcastListener`: lazily create the
`ActionListenerList` and add the listener. -/
def registerBroadcastListener (s : MMState) (l : Nat) : MMState :=
  match s.broadcastListeners with
  | none => { s with broadcastListeners := some [l] }
  | some ls => { s with broadcastListeners := some (ls ++ [l]) }

/-- `MessageManager::deregisterBroadcastListener`. -/
def deregisterBroadcastListener (s : MMState) (l : Nat) : MMState :=
  match s.broadcastListeners with
  | none => s
  | some ls => { s with broadcastListeners := some (ls.erase l) }

/-- `MessageManager::deliverBroadcastMessage`: forwards the string to
the fan-out list; no coordinator state changes. -/
def deliverBroadcastMessage (s : MMState) : MMState := s

/-- One operation of the coordinator (or of a scoped lock acting on the
coordinator's state), with the environment inputs it consumes. -/
inductive Op where
  | post (shimAccepts : Message → Bool) (m : Message)
  | deliver (tid : Nat) (m : Message) (oc : HandlerOutcome)
  | stopLoop (shimAccepts : Message → Bool)
  | runLoopUntil (tid : Nat) (millis startTime : Int) (env : List LoopStep)
  | lockEnterBlocking (tid : Nat)
  | lockEnterCancellable (tid : Nat) (attempts : List LockAttempt)
  | lockDestroy (l : MessageManagerLock)
  | setMsgThread (tid : Nat)
  | registerBroadcast (l : Nat)
  | deregisterBroadcast (l : Nat)
  | broadcast

/-- The state after running one operation. -/
def applyOp (s : MMState) : Op → MMState
  | Op.post _ _ => s
  | Op.deliver tid m oc => (deliverMessage s tid m oc).1
  | Op.stopLoop shimAccepts => (stopDispatchLoop s shimAccepts).1
  | Op.runLoopUntil tid millis t0 env => (runDispatchLoopUntil s tid millis t0 env).2.1
  | Op.lockEnterBlocking tid => (MessageManagerLock.enterBlocking s tid).1
  | Op.lockEnterCancellable tid attempts =>
      match MessageManagerLock.enterCancellable s tid attempts with
      | some (s1, _) => s1
      | none => s
  | Op.lockDestroy l => MessageManagerLock.destroy s l
  | Op.setMsgThread tid => setCurrentMessageThread s tid
  | Op.registerBroadcast l => registerBroadcastListener s l
  | Op.deregisterBroadcast l => deregisterBroadcastListener s l
  | Op.broadcast => deliverBroadcastMessage s

/-- A concrete state: singleton alive, message thread is thread `1`,
nobody holds the dispatch lock, no quit in flight. -/
def sampleState : MMState :=
  { instanceExists := true, messageThreadId := 1, currentLockingThreadId := 0,
    dispatchLockHeld := false, quitMessagePosted := false,
    quitMessageReceived := false, messageListeners := [],
    broadcastListeners := none }

/-- `sampleState` after the quit sentinel has been observed. -/
def quitState : MMState := { sampleState with quitMessageReceived := true }

/-- `sampleState` before the coordinator singleton exists. -/
def noInstanceState : MMState := { sampleState with instanceExists := false }

/-- The sentinel message `stopDispatchLoop` builds. -/
def sentinelMessage : Message :=
  { intParameter1 := quitMessageId, intParameter2 := 0, intParameter3 := 0,
    pointerParameter := 0, messageRecipient := 0 }

/-- A platform shim that accepts every post. -/
def acceptAll : Message → Bool := fun _ => true

/-- A two-iteration environment: the first iteration pops the quit
sentinel, the second finds the loop condition already false. -/
def sampleEnv : List LoopStep :=
  [(0, some (sentinelMessage, HandlerOutcome.normal)), (1, none)]

/-! ## Helper lemmas -/

/-- The lock destructor never touches `quitMessageReceived`. -/
theorem destroy_quitMessageReceived (s : MMState) (l : MessageManagerLock) :
    (MessageManagerLock.destroy s l).quitMessageReceived = s.quitMessageReceived := by
  unfold MessageManagerLock.destroy
  split <;> rfl

/-- The blocking lock constructor never touches `quitMessageReceived`. -/
theorem enterBlocking_quitMessageReceived (s : MMState) (tid : Nat) :
    ((MessageManagerLock.enterBlocking s tid).1).quitMessageReceived
      = s.quitMessageReceived := by
  unfold MessageManagerLock.enterBlocking
  split <;> rfl

/-- How `deliverMessage` changes `quitMessageReceived`: it becomes true
exactly when it already was, or the recipient is unregistered, null and
the tag is the quit sentinel. -/
theorem deliverMessage_fst_quit (s : MMState) (tid : Nat) (m : Message)
    (oc : HandlerOutcome) :
    ((deliverMessage s tid m oc).1).quitMessageReceived
      = (s.quitMessageReceived ||
          (!(s.messageListeners.contains m.messageRecipient) &&
           (m.messageRecipient == 0 && m.intParameter1 == quitMessageId))) := by
  by_cases hi : s.instanceExists <;>
  by_cases hc : m.messageRecipient ∈ s.messageListeners <;>
  cases oc <;>
  by_cases hq : (m.messageRecipient == 0 && m.intParameter1 == quitMessageId) = true <;>
  simp [deliverMessage, MessageManagerLock.enterBlocking,
        MessageManagerLock.destroy, runHandler, hi, hc, hq]

/-- The result record `deliverMessage` returns, characterised. -/
theorem deliverMessage_snd (s : MMState) (tid : Nat) (m : Message)
    (oc : HandlerOutcome) :
    (deliverMessage s tid m oc).2
      = if s.messageListeners.contains m.messageRecipient then
          { handlerInvoked := true,
            exceptionCaught := decide (oc = HandlerOutcome.thrown),
            destroyCount := 1 }
        else
          { handlerInvoked := false, exceptionCaught := false,
            destroyCount := 1 } := by
  by_cases hi : s.instanceExists <;>
  by_cases hc : m.messageRecipient ∈ s.messageListeners <;>
  cases oc <;>
  by_cases hq : (m.messageRecipient == 0 && m.intParameter1 == quitMessageId) = true <;>
  simp [deliverMessage, MessageManagerLock.enterBlocking, runHandler, hi, hc, hq]

/-- Every flag handed to the shim inside the dispatch loop is
`millisecondsToRunFor >= 0`. -/
theorem runDispatchLoopAux_flags (millis endTime : Int) (tid : Nat) :
    ∀ (env : List LoopStep) (s : MMState),
      ∀ f ∈ (runDispatchLoopAux millis endTime tid s env).2.2,
        f = decide (0 ≤ millis) := by
  intro env
  induction env with
  | nil => intro s f hf; simp [runDispatchLoopAux] at hf
  | cons step rest ih =>
      intro s f hf
      rw [runDispatchLoopAux] at hf
      by_cases hcond : (millis < 0 ∨ step.1 < endTime) ∧ s.quitMessageReceived = false
      · simp only [hcond, if_pos] at hf
        rcases List.mem_cons.mp hf with h1 | h2
        · exact h1
        · exact ih _ f h2
      · simp only [hcond, if_neg, not_false_eq_true] at hf
        simp at hf

/-- When the dispatch loop exits on its own, it returns
`! quitMessageReceived` of the final state, and with a negative
`millisecondsToRunFor` it can only have exited because of the quit
sentinel. -/
theorem runDispatchLoopAux_result (millis endTime : Int) (tid : Nat) :
    ∀ (env : List LoopStep) (s : MMState) (r : Bool),
      (runDispatchLoopAux millis endTime tid s env).1 = some r →
        r = !((runDispatchLoopAux millis endTime tid s env).2.1).quitMessageReceived ∧
        (millis < 0 → r = false) := by
  intro env
  induction env with
  | nil => intro s r h; simp [runDispatchLoopAux] at h
  | cons step rest ih =>
      intro s r h
      rw [runDispatchLoopAux] at h ⊢
      by_cases hcond : (millis < 0 ∨ step.1 < endTime) ∧ s.quitMessageReceived = false
      · simp only [hcond, if_pos] at h ⊢
        exact ih _ r h
      · simp only [hcond, if_neg, not_false_eq_true] at h ⊢
        constructor
        · simpa using h.symm
        · intro hm
          have hq : s.quitMessageReceived = true := by
            rcases Bool.eq_false_or_eq_true s.quitMessageReceived with ht | hf
            · exact ht
            · exact absurd ⟨Or.inl hm, hf⟩ hcond
          have : r = !s.quitMessageReceived := by simpa using h.symm
          rw [this, hq]
          rfl

/-- Once `quitMessageReceived` is set the loop performs no iteration:
no shim call happens, the state is untouched, and (when the environment
offers at least one step so the loop condition is actually evaluated)
the loop returns `false`. -/
theorem runDispatchLoopAux_quit_exits (millis endTime : Int) (tid : Nat)
    (s : MMState) (env : List LoopStep) (h : s.quitMessageReceived = true) :
    (runDispatchLoopAux millis endTime tid s env).2.1 = s ∧
    (runDispatchLoopAux millis endTime tid s env).2.2 = [] ∧
    (env ≠ [] → (runDispatchLoopAux millis endTime tid s env).1 = some false) := by
  cases env with
  | nil => exact ⟨rfl, rfl, fun hne => absurd rfl hne⟩
  | cons step rest =>
      have hcond : ¬ ((millis < 0 ∨ step.1 < endTime) ∧ s.quitMessageReceived = false) := by
        intro hc
        rw [h] at hc
        exact absurd hc.2 (by decide)
      rw [runDispatchLoopAux, if_neg hcond]
      exact ⟨rfl, rfl, fun _ => by rw [h]; rfl⟩

/-- If the cancellable constructor's retry loop hands back a state, that
state has the same `quitMessageReceived` as the initial one. -/
theorem enterLoop_quitMessageReceived (s : MMState) (tid : Nat) :
    ∀ (attempts : List LockAttempt) (s1 : MMState) (l : MessageManagerLock),
      MessageManagerLock.enterLoop s tid attempts = some (s1, l) →
        s1.quitMessageReceived = s.quitMessageReceived := by
  intro attempts
  induction attempts with
  | nil => intro s1 l h; simp [MessageManagerLock.enterLoop] at h
  | cons a rest ih =>
      intro s1 l h
      obtain ⟨tryOk, shouldExit⟩ := a
      rw [MessageManagerLock.enterLoop] at h
      cases tryOk with
      | true =>
          simp only [if_pos] at h
          obtain ⟨h1, _⟩ := Prod.mk.injEq .. ▸ (Option.some.injEq .. ▸ h)
          rw [← h1]
      | false =>
          cases shouldExit with
          | true =>
              simp only [Bool.false_eq_true, if_false, if_pos] at h
              obtain ⟨h1, _⟩ := Prod.mk.injEq .. ▸ (Option.some.injEq .. ▸ h)
              rw [← h1]
          | false =>
              simp only [Bool.false_eq_true, if_false] at h
              exact ih s1 l h

/-- If an all-failed prefix of attempts is followed by one where
`tryEnter` fails and the worker should exit, the retry loop gives up:
no lock, no state change. -/
theorem enterLoop_abandons (s : MMState) (tid : Nat)
    (rest : List LockAttempt) :
    ∀ pre : List LockAttempt, (∀ a ∈ pre, a = (false, false)) →
      MessageManagerLock.enterLoop s tid (pre ++ (false, true) :: rest)
        = some (s, { lastLockingThreadId := 0, locked := false }) := by
  intro pre
  induction pre with
  | nil =>
      intro _
      rw [List.nil_append, MessageManagerLock.enterLoop]
      simp
  | cons a pre ih =>
      intro hpre
      have ha : a = (false, false) := hpre a (List.mem_cons_self a pre)
      subst ha
      rw [List.cons_append, MessageManagerLock.enterLoop]
      simp only [Bool.false_eq_true, if_false]
      exact ih (fun b hb => hpre b (List.mem_cons_of_mem _ hb))

/-- No coordinator operation resets `quitMessageReceived`. -/
theorem applyOp_quitMessageReceived_mono (s : MMState) (op : Op)
    (h : s.quitMessageReceived = true) :
    (applyOp s op).quitMessageReceived = true := by
  cases op with
  | post shimAccepts m => exact h
  | deliver tid m oc =>
      rw [applyOp, deliverMessage_fst_quit, h]
      rfl
  | stopLoop shimAccepts => exact h
  | runLoopUntil tid millis t0 env =>
      rw [applyOp, runDispatchLoopUntil,
          (runDispatchLoopAux_quit_exits millis (t0 + millis) tid s env h).1]
      exact h
  | lockEnterBlocking tid =>
      rw [applyOp, enterBlocking_quitMessageReceived]
      exact h
  | lockEnterCancellable tid attempts =>
      rw [applyOp]
      by_cases hi : s.instanceExists
      · cases heq : MessageManagerLock.enterCancellable s tid attempts with
        | none => simp only [heq]; exact h
        | some p =>
            obtain ⟨s1, l⟩ := p
            simp only [heq]
            rw [MessageManagerLock.enterCancellable, if_pos hi] at heq
            rw [enterLoop_quitMessageReceived s tid attempts s1 l heq]
            exact h
      · rw [MessageManagerLock.enterCancellable, if_neg hi]
        exact h
  | lockDestroy l =>
      rw [applyOp, destroy_quitMessageReceived]
      exact h
  | setMsgThread tid => exact h
  | registerBroadcast l =>
      rw [applyOp, registerBroadcastListener]
      cases s.broadcastListeners <;> exact h
  | deregisterBroadcast l =>
      rw [applyOp, deregisterBroadcastListener]
      cases s.broadcastListeners <;> exact h
  | broadcast => exact h

/-! ## Claim theorems -/

/-- Claim C1, counterexample: thread `2` (not the message thread `1` of
`sampleState`) holds a blocking `MessageManagerLock` taken with the
singleton existing, `currentThreadHasLockedMessageManager` answers true
for it — yet `isThisTheMessageThread` answers false, not true as the
claim states: the lock swaps `currentLockingThreadId`, never
`messageThreadId`. -/
theorem blockingLock_worker_not_message_thread_cex :
    sampleState.instanceExists = true ∧
    (2 : Nat) ≠ sampleState.messageThreadId ∧
    (MessageManagerLock.enterBlocking sampleState 2).2.locked = true ∧
    currentThreadHasLockedMessageManager
      (MessageManagerLock.enterBlocking sampleState 2).1 2 = true ∧
    isThisTheMessageThread
      (MessageManagerLock.enterBlocking sampleState 2).1 2 = false := by
  decide

/-- Claim C1 (amended): for a worker thread whose OS thread id differs
from `messageThreadId`, while it holds a blocking `MessageManagerLock`
(constructed with the singleton existing),
`currentThreadHasLockedMessageManager` returns true for that worker but
`isThisTheMessageThread` returns false — the lock rewrites
`currentLockingThreadId` only, not `messageThreadId`. -/
theorem blockingLock_identity_swap (s : MMState) (tid : Nat)
    (h1 : s.instanceExists = true) (h2 : tid ≠ s.messageThreadId) :
    currentThreadHasLockedMessageManager
      (MessageManagerLock.enterBlocking s tid).1 tid = true ∧
    isThisTheMessageThread
      (MessageManagerLock.enterBlocking s tid).1 tid = false := by
  rw [MessageManagerLock.enterBlocking, if_pos h1]
  constructor
  · simp [currentThreadHasLockedMessageManager]
  · simp only [isThisTheMessageThread]
    exact beq_eq_false_iff_ne.mpr h2

/-- Claim C1, witness at `sampleState` with worker thread `2`. -/
theorem blockingLock_identity_swap_witness :
    currentThreadHasLockedMessageManager
      (MessageManagerLock.enterBlocking sampleState 2).1 2 = true ∧
    isThisTheMessageThread
      (MessageManagerLock.enterBlocking sampleState 2).1 2 = false :=
  blockingLock_identity_swap sampleState 2 rfl (by decide)

/-- Claim C2: for every message handed to `deliverMessage`: the
`delete m` runs exactly once on every path (handler throwing included);
a recipient present in `messageListeners` gets its handler invoked under
the exception barrier (a thrown exception is caught, and
`quitMessageReceived` is untouched); an absent recipient never gets a
call, and then a null recipient carrying the sentinel tag sets
`quitMessageReceived` while anything else leaves it unchanged (silent
drop). -/
theorem deliverMessage_spec (s : MMState) (tid : Nat) (m : Message)
    (oc : HandlerOutcome) :
    ((deliverMessage s tid m oc).2).destroyCount = 1 ∧
    (s.messageListeners.contains m.messageRecipient = true →
        ((deliverMessage s tid m oc).2).handlerInvoked = true ∧
        ((deliverMessage s tid m oc).1).quitMessageReceived
          = s.quitMessageReceived) ∧
    (s.messageListeners.contains m.messageRecipient = false →
        ((deliverMessage s tid m oc).2).handlerInvoked = false) ∧
    (s.messageListeners.contains m.messageRecipient = false →
        m.messageRecipient = 0 → m.intParameter1 = quitMessageId →
        ((deliverMessage s tid m oc).1).quitMessageReceived = true) ∧
    (s.messageListeners.contains m.messageRecipient = false →
        ¬ (m.messageRecipient = 0 ∧ m.intParameter1 = quitMessageId) →
        ((deliverMessage s tid m oc).1).quitMessageReceived
          = s.quitMessageReceived) ∧
    (s.messageListeners.contains m.messageRecipient = true →
        oc = HandlerOutcome.thrown →
        ((deliverMessage s tid m oc).2).exceptionCaught = true) := by
  refine ⟨?_, ?_, ?_, ?_, ?_, ?_⟩
  · rw [deliverMessage_snd]
    split <;> rfl
  · intro hc
    simp at hc
    rw [deliverMessage_snd, deliverMessage_fst_quit]
    simp [hc]
  · intro hc
    simp at hc
    rw [deliverMessage_snd]
    simp [hc]
  · intro hc h0 hq
    simp at hc
    rw [deliverMessage_fst_quit]
    simp [hc, h0, hq]
    exact Or.inr (h0 ▸ hc)
  · intro hc hn
    have hb : (m.messageRecipient == 0 && m.intParameter1 == quitMessageId) = false := by
      rw [Bool.eq_false_iff]
      intro hcontra
      rw [Bool.and_eq_true] at hcontra
      exact hn ⟨beq_iff_eq.mp hcontra.1, beq_iff_eq.mp hcontra.2⟩
    rw [deliverMessage_fst_quit, hb]
    simp
  · intro hc ho
    simp at hc
    rw [deliverMessage_snd]
    simp [hc, ho]

/-- Claim C3: `runDispatchLoopUntil` hands the shim
`returnIfNoPendingMessages = (millis >= 0)` on every iteration (so it
blocks on an empty queue exactly when `millis` is negative); when the
loop exits it returns `! quitMessageReceived`, i.e. `true` when it
exited by deadline with the quit flag still clear and `false` when the
quit flag stopped it; and with a negative `millis` there is no deadline,
so the only way out is the quit flag and the result is `false`. -/
theorem runDispatchLoopUntil_spec (s : MMState) (tid : Nat)
    (millis startTime : Int) (env : List LoopStep) (r : Bool)
    (h : (runDispatchLoopUntil s tid millis startTime env).1 = some r) :
    (∀ f ∈ (runDispatchLoopUntil s tid millis startTime env).2.2,
        f = decide (0 ≤ millis)) ∧
    r = !((runDispatchLoopUntil s tid millis startTime env).2.1).quitMessageReceived ∧
    (millis < 0 → r = false) := by
  refine ⟨?_, ?_⟩
  · exact runDispatchLoopAux_flags millis (startTime + millis) tid env s
  · exact runDispatchLoopAux_result millis (startTime + millis) tid env s r h

/-- Claim C3, witness: a no-deadline run over `sampleEnv` dispatches the
sentinel, exits by quit, returned `false`, and blocked on the shim. -/
theorem runDispatchLoopUntil_spec_witness :
    (∀ f ∈ (runDispatchLoopUntil sampleState 1 (-1) 0 sampleEnv).2.2,
        f = decide (0 ≤ (-1 : Int))) ∧
    false = !((runDispatchLoopUntil sampleState 1 (-1) 0 sampleEnv).2.1).quitMessageReceived ∧
    ((-1 : Int) < 0 → false = false) :=
  runDispatchLoopUntil_spec sampleState 1 (-1) 0 sampleEnv false (by decide)

/-- Claim C4: `stopDispatchLoop` builds the sentinel (null recipient,
tag `0xfffff321`), routes it through `postMessageToQueue`, and sets
`quitMessagePosted` only afterwards — so when `quitMessagePosted` was
still false on entry, the sentinel reaches
`juce_postMessageToSystemQueue` instead of being dropped by `post`'s
quit check. -/
theorem stopDispatchLoop_spec (s : MMState) (shimAccepts : Message → Bool)
    (h : s.quitMessagePosted = false) :
    (stopDispatchLoop s shimAccepts).2.2.messageRecipient = 0 ∧
    (stopDispatchLoop s shimAccepts).2.2.intParameter1 = quitMessageId ∧
    (stopDispatchLoop s shimAccepts).2.1.shimCalled = true ∧
    (stopDispatchLoop s shimAccepts).1.quitMessagePosted = true := by
  refine ⟨rfl, rfl, ?_, rfl⟩
  rw [stopDispatchLoop]
  simp only [postMessageToQueue, h, if_false, Bool.false_eq_true]
  split <;> rfl

/-- Claim C4, witness at `sampleState` with an accepting shim. -/
theorem stopDispatchLoop_spec_witness :
    (stopDispatchLoop sampleState acceptAll).2.2.messageRecipient = 0 ∧
    (stopDispatchLoop sampleState acceptAll).2.2.intParameter1 = quitMessageId ∧
    (stopDispatchLoop sampleState acceptAll).2.1.shimCalled = true ∧
    (stopDispatchLoop sampleState acceptAll).1.quitMessagePosted = true :=
  stopDispatchLoop_spec sampleState acceptAll rfl

/-- Claim C5: `postMessageToQueue` destroys the message exactly when
`quitMessagePosted` is set or the shim refuses it (and it consults the
shim exactly when `quitMessagePosted` is clear); otherwise ownership
passes to the OS queue.  The function's return type carries no error
channel, so the caller learns nothing either way. -/
theorem postMessageToQueue_spec (s : MMState) (shimAccepts : Message → Bool)
    (m : Message) :
    (postMessageToQueue s shimAccepts m).destroyed
      = (s.quitMessagePosted || !(shimAccepts m)) ∧
    (postMessageToQueue s shimAccepts m).shimCalled = !s.quitMessagePosted := by
  unfold postMessageToQueue
  by_cases hq : s.quitMessagePosted <;> by_cases ha : shimAccepts m <;>
    simp [hq, ha]

/-- Claim C6: constructing and destroying a blocking
`MessageManagerLock` with the singleton existing throughout restores
`currentLockingThreadId` to exactly its prior value and releases the
dispatch mutex: the whole round trip leaves every field as it was,
except that the mutex is released.  Because the start state `s` is
arbitrary — it may itself be one where another scoped lock is held —
nested and sequential acquisitions compose. -/
theorem blockingLock_roundtrip (s : MMState) (tid : Nat)
    (h : s.instanceExists = true) :
    MessageManagerLock.destroy (MessageManagerLock.enterBlocking s tid).1
        (MessageManagerLock.enterBlocking s tid).2
      = { s with dispatchLockHeld := false } ∧
    (MessageManagerLock.destroy (MessageManagerLock.enterBlocking s tid).1
        (MessageManagerLock.enterBlocking s tid).2).currentLockingThreadId
      = s.currentLockingThreadId := by
  rw [MessageManagerLock.enterBlocking, if_pos h]
  constructor
  · rw [MessageManagerLock.destroy]
    simp [h]
  · rw [MessageManagerLock.destroy]
    simp [h]

/-- Claim C6, witness at `sampleState` with worker thread `2`. -/
theorem blockingLock_roundtrip_witness :
    MessageManagerLock.destroy (MessageManagerLock.enterBlocking sampleState 2).1
        (MessageManagerLock.enterBlocking sampleState 2).2
      = { sampleState with dispatchLockHeld := false } ∧
    (MessageManagerLock.destroy (MessageManagerLock.enterBlocking sampleState 2).1
        (MessageManagerLock.enterBlocking sampleState 2).2).currentLockingThreadId
      = sampleState.currentLockingThreadId :=
  blockingLock_roundtrip sampleState 2 rfl

/-- Claim C7: in the cancellable constructor, when a `tryEnter` fails
and the worker's `threadShouldExit()` is true (after any number of
earlier failed attempts that did not ask to exit), the constructor
abandons acquisition: `locked = false`, the global state —
`currentLockingThreadId` and the mutex included — is exactly as before,
and the destructor on the resulting lock changes nothing. -/
theorem cancellableLock_abandons (s : MMState) (tid : Nat)
    (pre rest : List LockAttempt)
    (hinst : s.instanceExists = true)
    (hpre : ∀ a ∈ pre, a = (false, false)) :
    MessageManagerLock.enterCancellable s tid (pre ++ (false, true) :: rest)
      = some (s, { lastLockingThreadId := 0, locked := false }) ∧
    MessageManagerLock.destroy s { lastLockingThreadId := 0, locked := false }
      = s := by
  constructor
  · rw [MessageManagerLock.enterCancellable, if_pos hinst]
    exact enterLoop_abandons s tid rest pre hpre
  · rw [MessageManagerLock.destroy]
    simp

/-- Claim C7, witness: one contended attempt, then `should_exit`. -/
theorem cancellableLock_abandons_witness :
    MessageManagerLock.enterCancellable sampleState 3
        ([(false, false)] ++ (false, true) :: [])
      = some (sampleState, { lastLockingThreadId := 0, locked := false }) ∧
    MessageManagerLock.destroy sampleState
        { lastLockingThreadId := 0, locked := false }
      = sampleState :=
  cancellableLock_abandons sampleState 3 [(false, false)] [] rfl (by decide)

/-- Claim C8: across every operation of the coordinator,
`quitMessageReceived` only transitions from false to true — no operation
resets it — and once it is true `runDispatchLoopUntil` performs no
further iterations: no shim call is recorded, the state is untouched,
and the loop-condition check (reached whenever the environment offers a
step) exits the loop at once with result `false`. -/
theorem quitMessageReceived_monotone (s : MMState) (op : Op) (tid : Nat)
    (millis startTime : Int) (env : List LoopStep)
    (h : s.quitMessageReceived = true) :
    (applyOp s op).quitMessageReceived = true ∧
    (runDispatchLoopUntil s tid millis startTime env).2.2 = [] ∧
    (runDispatchLoopUntil s tid millis startTime env).2.1 = s ∧
    (env ≠ [] →
      (runDispatchLoopUntil s tid millis startTime env).1 = some false) := by
  obtain ⟨h1, h2, h3⟩ :=
    runDispatchLoopAux_quit_exits millis (startTime + millis) tid s env h
  exact ⟨applyOp_quitMessageReceived_mono s op h, h2, h1, h3⟩

/-- Claim C8, witness: from `quitState` (quit already observed), a
`stopDispatchLoop` keeps the flag, and a two-step loop neither calls the
shim nor changes state and exits with `false`. -/
theorem quitMessageReceived_monotone_witness :
    (applyOp quitState (Op.stopLoop acceptAll)).quitMessageReceived = true ∧
    (runDispatchLoopUntil quitState 1 5 0 sampleEnv).2.2 = [] ∧
    (runDispatchLoopUntil quitState 1 5 0 sampleEnv).2.1 = quitState ∧
    (sampleEnv ≠ [] →
      (runDispatchLoopUntil quitState 1 5 0 sampleEnv).1 = some false) :=
  quitMessageReceived_monotone quitState (Op.stopLoop acceptAll) 1 5 0
    sampleEnv rfl

/-- Claim C9: a `MessageManagerLock` of either variant constructed while
the singleton does not exist performs no acquisition and no state
change, `locked` stays false, and the destructor is also a no-op. -/
theorem lock_noop_without_instance (s : MMState) (tid : Nat)
    (attempts : List LockAttempt) (h : s.instanceExists = false) :
    MessageManagerLock.enterBlocking s tid
      = (s, { lastLockingThreadId := 0, locked := false }) ∧
    MessageManagerLock.enterCancellable s tid attempts
      = some (s, { lastLockingThreadId := 0, locked := false }) ∧
    MessageManagerLock.destroy s { lastLockingThreadId := 0, locked := false }
      = s := by
  refine ⟨?_, ?_, ?_⟩
  · rw [MessageManagerLock.enterBlocking, if_neg (by simp [h])]
  · rw [MessageManagerLock.enterCancellable, if_neg (by simp [h])]
  · rw [MessageManagerLock.destroy]
    simp

/-- Claim C9, witness at `noInstanceState`. -/
theorem lock_noop_without_instance_witness :
    MessageManagerLock.enterBlocking noInstanceState 9
      = (noInstanceState, { lastLockingThreadId := 0, locked := false }) ∧
    MessageManagerLock.enterCancellable noInstanceState 9 []
      = some (noInstanceState, { lastLockingThreadId := 0, locked := false }) ∧
    MessageManagerLock.destroy noInstanceState
        { lastLockingThreadId := 0, locked := false }
      = noInstanceState :=
  lock_noop_without_instance noInstanceState 9 [] rfl

/-- Claim C10: the `MessageManagerLock` destructor restores
`currentLockingThreadId` and releases the mutex exactly when `locked` is
true and the singleton still exists; if `locked` is false, or the
singleton was torn down between acquisition and destruction, it does
nothing — the saved id is not restored and the mutex is not released. -/
theorem lockDestroy_guard (s : MMState) (l : MessageManagerLock) :
    (l.locked = true ∧ s.instanceExists = true →
        MessageManagerLock.destroy s l
          = { s with currentLockingThreadId := l.lastLockingThreadId,
                     dispatchLockHeld := false }) ∧
    (l.locked = false ∨ s.instanceExists = false →
        MessageManagerLock.destroy s l = s) := by
  constructor
  · rintro ⟨h1, h2⟩
    rw [MessageManagerLock.destroy]
    simp [h1, h2]
  · rintro (h | h) <;> rw [MessageManagerLock.destroy] <;> simp [h]

end Juce
